import Mathlib

/-!
Shallow embedding of `src/cli/src/tunnels/control_server.rs` (the tunnel
control server of the VS Code CLI): the RPC method table, the `servermsg`,
`httpheaders`, HTTP-body, `update`, `serve` and `spawn` handlers, the
per-connection write loop, and the outer accept/respawn loop.  Machine
integers that matter (socket ids, request ids, bytes) are modelled as `Nat`;
fallible Rust code returns `Except AnyError _`; async state is passed
explicitly or modelled as a step relation on an explicit state type.
-/

namespace ControlServer

/-- The subset of `AnyError` variants (`src/cli/src/util/errors.rs`, used by
`control_server.rs`) that the embedded handlers can produce. -/
inductive AnyError where
  | NoAttachedServer
  | MismatchedLaunchMode
  | ProcessSpawnFailed (msg : String)
  | InvalidRpcData (msg : String)
  | Wrapped (context : String)
  deriving DecidableEq, Repr

/-- Rust `EmptyObject` from `tunnels/protocol.rs`: the `{}` RPC result. -/
structure EmptyObject where
  deriving DecidableEq, Repr

/-- Rust `ServerMessageParams { i: u16, body: Vec<u8> }` for the `servermsg` method. -/
structure ServerMessageParams where
  i : Nat
  body : List Nat
  deriving DecidableEq, Repr

/-- Modelled from the spec: the `ServerMultiplexer` (§4.5, its source file is
not under `src/`) is a mapping `socket_id → bridge`; for the claims here only
the set of registered socket ids matters, so the state is that list of ids. -/
abbrev ServerMultiplexer := List Nat

/-- Modelled from the spec: `ServerMultiplexer.write_message(socket_id, body)
→ bool (false if absent)` (§4.5).  The forwarded body does not affect the
returned boolean, which is all `handle_server_message` inspects. -/
def write_message (mux : ServerMultiplexer) (i : Nat) (_body : List Nat) : Bool :=
  mux.contains i

/-- Rust `handle_server_message` (control_server.rs:602): ok `{}` when the
multiplexer accepted the write, `NoAttachedServer` otherwise. -/
def handle_server_message (mux : ServerMultiplexer) (params : ServerMessageParams) :
    Except AnyError EmptyObject :=
  if write_message mux params.i params.body then
    Except.ok EmptyObject.mk
  else
    Except.error AnyError.NoAttachedServer

/-- The closure registered for `"servermsg"` (control_server.rs:273-278): it
calls `handle_server_message`, logs a warning on error, and always returns
`Ok(EmptyObject {})` as the RPC response. -/
def servermsg_rpc (mux : ServerMultiplexer) (params : ServerMessageParams) :
    Except AnyError EmptyObject :=
  let r := handle_server_message mux params
  -- `if let Err(e) = r { warning!(..) }`: the error is only logged
  match r with
  | Except.error _ => Except.ok EmptyObject.mk
  | Except.ok _ => Except.ok EmptyObject.mk

/-! ### The RPC method table (control_server.rs:265-320) -/

/-- Registration mode of a dispatcher method: `register_sync`,
`register_async`, or `register_duplex` with its stream arity. -/
inductive HandlerKind where
  | sync
  | async
  | duplex (streams : Nat)
  deriving DecidableEq, Repr

/-- Tag naming the Rust params type a registered closure deserializes. -/
inductive ParamKind where
  | emptyObject
  | serveParams
  | updateParams
  | serverMessageParams
  | callServerHttpParams
  | forwardParams
  | unforwardParams
  | acquireCliParams
  | spawnParams
  | httpHeadersParams
  | httpBodyParams
  deriving DecidableEq, Repr

/-- The method registrations of `process_socket` (control_server.rs:265-320),
in source order: name, registration mode, params type.  Note the last entry:
the closure taking `HttpBodyParams` is registered under the name
`"unforward"` (line 309), the same name as the `UnforwardParams` async
handler (line 287). -/
def registeredMethods : List (String × HandlerKind × ParamKind) :=
  [ ("ping", HandlerKind.sync, ParamKind.emptyObject),
    ("gethostname", HandlerKind.sync, ParamKind.emptyObject),
    ("serve", HandlerKind.async, ParamKind.serveParams),
    ("update", HandlerKind.async, ParamKind.updateParams),
    ("servermsg", HandlerKind.sync, ParamKind.serverMessageParams),
    ("prune", HandlerKind.sync, ParamKind.emptyObject),
    ("callserverhttp", HandlerKind.async, ParamKind.callServerHttpParams),
    ("forward", HandlerKind.async, ParamKind.forwardParams),
    ("unforward", HandlerKind.async, ParamKind.unforwardParams),
    ("acquire_cli", HandlerKind.async, ParamKind.acquireCliParams),
    ("spawn", HandlerKind.duplex 3, ParamKind.spawnParams),
    ("httpheaders", HandlerKind.sync, ParamKind.httpHeadersParams),
    ("unforward", HandlerKind.sync, ParamKind.httpBodyParams) ]

/-! ### Delegated HTTP: pending-request table and its handlers -/

/-- Stand-in for `DelegatedHttpRequest` (its file is not under `src/`): the
handlers embedded here only look entries up and remove them, so the payload
is opaque. -/
structure PendingHttp where
  tag : Nat
  deriving DecidableEq, Repr

/-- The `HashMap<u32, DelegatedHttpRequest>` pending table, as an association
list keyed by `req_id`. -/
abbrev HttpRequestsMap := List (Nat × PendingHttp)

/-- HashMap lookup on the association-list model. -/
def hmGet (m : HttpRequestsMap) (k : Nat) : Option PendingHttp :=
  match m with
  | [] => none
  | (k2, v) :: rest => if k2 = k then some v else hmGet rest k

/-- HashMap removal on the association-list model. -/
def hmRemove (m : HttpRequestsMap) (k : Nat) : HttpRequestsMap :=
  match m with
  | [] => []
  | (k2, v) :: rest => if k2 = k then hmRemove rest k else (k2, v) :: hmRemove rest k

/-- HashMap insertion on the association-list model (`req_id`s are fresh in
the source, so plain cons after removal of the key). -/
def hmInsert (m : HttpRequestsMap) (k : Nat) (v : PendingHttp) : HttpRequestsMap :=
  (k, v) :: hmRemove m k

/-- Observable calls the HTTP handlers make on a pending request. -/
inductive HttpEffect where
  | initialResponse (reqId : Nat) (status : Nat)
  | bodySegment (reqId : Nat) (segment : List Nat)
  deriving DecidableEq, Repr

/-- Rust `HttpHeadersParams { req_id, status_code, headers }`. -/
structure HttpHeadersParams where
  req_id : Nat
  status_code : Nat
  headers : List (String × String)
  deriving DecidableEq, Repr

/-- Rust `HttpBodyParams { req_id, segment, complete }`. -/
structure HttpBodyParams where
  req_id : Nat
  segment : List Nat
  complete : Bool
  deriving DecidableEq, Repr

/-- The `"httpheaders"` sync closure (control_server.rs:303-308): if the
`req_id` is pending, deliver the initial response; in all cases answer `{}`
and leave the table unchanged. -/
def handle_httpheaders (reqs : HttpRequestsMap) (p : HttpHeadersParams) :
    Except AnyError EmptyObject × HttpRequestsMap × List HttpEffect :=
  match hmGet reqs p.req_id with
  | some _ => (Except.ok EmptyObject.mk, reqs, [HttpEffect.initialResponse p.req_id p.status_code])
  | none => (Except.ok EmptyObject.mk, reqs, [])

/-- The HTTP-body sync closure (control_server.rs:309-320, registered under
the name `"unforward"`): if the `req_id` is pending, deliver the non-empty
segment and, when `complete`, remove the entry; in all cases answer `{}`. -/
def handle_httpbody (reqs : HttpRequestsMap) (p : HttpBodyParams) :
    Except AnyError EmptyObject × HttpRequestsMap × List HttpEffect :=
  match hmGet reqs p.req_id with
  | none => (Except.ok EmptyObject.mk, reqs, [])
  | some _ =>
    let effs := if p.segment.isEmpty then [] else [HttpEffect.bodySegment p.req_id p.segment]
    let reqs2 := if p.complete then hmRemove reqs p.req_id else reqs
    (Except.ok EmptyObject.mk, reqs2, effs)

/-! ### `handle_update` (control_server.rs:622-667) -/

/-- Rust `UpdateParams { do_update: bool }`. -/
structure UpdateParams where
  do_update : Bool
  deriving DecidableEq, Repr

/-- Rust `UpdateResult { up_to_date, did_update }`. -/
structure UpdateResult where
  up_to_date : Bool
  did_update : Bool
  deriving DecidableEq, Repr

/-- Environment a single `handle_update` call observes from its external
collaborators (`is_integrated_cli`, `SelfUpdate::get_current_release`,
`is_up_to_date_with`, `do_update`). -/
structure UpdateEnv where
  /-- `matches!(is_integrated_cli(), Ok(true))`. -/
  integratedCli : Bool
  /-- `updater.get_current_release()`: the resolved release, or its error. -/
  currentRelease : Except AnyError Nat
  /-- `updater.is_up_to_date_with(&latest_release)`. -/
  upToDate : Bool
  /-- `updater.do_update(..)` outcome. -/
  doUpdateResult : Except AnyError Unit
  deriving Repr

/-- Side effects of one `handle_update` call on external collaborators. -/
structure UpdateEffects where
  /-- whether `get_current_release` was invoked (a release was fetched) -/
  fetchedRelease : Bool
  /-- whether `do_update` was invoked (an update was performed) -/
  performedUpdate : Bool
  deriving DecidableEq, Repr

/-- Rust `handle_update` (control_server.rs:622-667): returns the RPC result, the
new `did_update` flag, and the effects performed.  `did` is the value of the
`did_update` atomic observed by this call (the mutex-free `load`, and the
later `compare_exchange`, both see the same value in this sequentialized
embedding). -/
def handle_update (env : UpdateEnv) (did : Bool) (params : UpdateParams) :
    Except AnyError UpdateResult × Bool × UpdateEffects :=
  if env.integratedCli || did then
    (Except.ok { up_to_date := true, did_update := false }, did, ⟨false, false⟩)
  else
    match env.currentRelease with
    | Except.error e => (Except.error e, did, ⟨true, false⟩)
    | Except.ok _ =>
      if !params.do_update || env.upToDate then
        (Except.ok { up_to_date := env.upToDate, did_update := false }, did, ⟨true, false⟩)
      else
        -- compare_exchange(false, true): `did` is false on this path, so the
        -- exchange succeeds and the flag becomes true before `do_update` runs
        match env.doUpdateResult with
        | Except.error e => (Except.error e, true, ⟨true, true⟩)
        | Except.ok _ =>
          (Except.ok { up_to_date := true, did_update := true }, true, ⟨true, true⟩)

/-! ### `handle_serve` (control_server.rs:485-559) -/

/-- Rust `ServeParams` (the fields `handle_serve` consumes). -/
structure ServeParams where
  extensions : List String
  use_local_download : Bool
  socket_id : Nat
  compress : Bool
  deriving DecidableEq, Repr

/-- Outcome of `ServerBuilder::get_running()`: a running socket-mode server,
a server in another launch mode, no running server, or an error. -/
inductive GetRunningResult where
  | socketServer (s : Nat)
  | otherMode
  | notRunning
  | failed (e : AnyError)
  deriving Repr

/-- What one `handle_serve` call observes from its external collaborators
(`ServerParamsRaw::resolve`, `ServerBuilder`, `ServerBridge::new`).  Editor
server handles (`SocketCodeServer`) are identified by `Nat`. -/
structure ServeEnv where
  /-- `params_raw.resolve(..)` outcome. -/
  resolveResult : Except AnyError Unit
  /-- `sb.get_running()` outcome (the `do_setup!` macro's match scrutinee). -/
  getRunning : GetRunningResult
  /-- `sb.setup()` followed by `sb.listen_on_default_socket()`: the fresh
  server handle, or the first error of the two awaits. -/
  setupResult : Except AnyError Nat
  /-- `ServerBridge::new(..)` outcome inside `attach_server_bridge`. -/
  attachResult : Except AnyError Unit
  deriving Repr

/-- What one `handle_serve` call produced: the RPC result, the
`code_server` slot after the call, and the `server` handle the call bound its
bridge to (`none` when execution never reached the bridge attach). -/
structure ServeOutcome where
  result : Except AnyError EmptyObject
  slot : Option Nat
  server : Option Nat
  deriving Repr

/-- Rust `handle_serve` (control_server.rs:485-559), with the `code_server` slot
passed explicitly: resolve first (slot untouched on error); then, under the
slot's mutex, reuse a stored server, else adopt a running socket-mode server
or set a new one up and store it (`server_ref.replace`); finally attach a
bridge for `socket_id`.  The async mutex serializes the slot section, so the
embedding threads the slot state sequentially. -/
def handle_serve (slot : Option Nat) (env : ServeEnv) (_params : ServeParams) : ServeOutcome :=
  match env.resolveResult with
  | Except.error e => { result := Except.error e, slot := slot, server := none }
  | Except.ok _ =>
    let locked : Except AnyError (Nat × Option Nat) :=
      match slot with
      | some o => Except.ok (o, some o)
      | none =>
        match env.getRunning with
        | GetRunningResult.failed e => Except.error e
        | GetRunningResult.socketServer s => Except.ok (s, some s)
        | GetRunningResult.otherMode => Except.error AnyError.MismatchedLaunchMode
        | GetRunningResult.notRunning =>
          match env.setupResult with
          | Except.error e => Except.error e
          | Except.ok s => Except.ok (s, some s)
    match locked with
    | Except.error e => { result := Except.error e, slot := slot, server := none }
    | Except.ok (server, slot2) =>
      match env.attachResult with
      | Except.error e => { result := Except.error e, slot := slot2, server := some server }
      | Except.ok _ => { result := Except.ok EmptyObject.mk, slot := slot2, server := some server }

/-- Slot state after a sequence of `serve` calls (the mutex makes any
interleaving equivalent to this sequence). -/
def serveSeq (slot : Option Nat) (calls : List (ServeEnv × ServeParams)) : Option Nat :=
  match calls with
  | [] => slot
  | c :: rest => serveSeq (handle_serve slot c.1 c.2).slot rest

/-! ### The outer accept/respawn loop `serve` (control_server.rs:129-211) -/

/-- Rust `ServerSignal` (control_server.rs:103-110): the only variant is
`Respawn`. -/
inductive ServerSignal where
  | Respawn
  deriving DecidableEq, Repr

/-- Rust `Next` (control_server.rs:112-119). -/
inductive Next where
  | Respawn
  | Restart
  | Exit
  deriving DecidableEq, Repr

/-- Modelled from the spec: `ShutdownSignal` (its source file is not under
`src/`); only `RpcRestartRequested` is distinguished by the loop
(`RpcRestartRequested → Restart`, else `Exit`), so every other variant is
collapsed into `other`. -/
inductive ShutdownSignal where
  | RpcRestartRequested
  | other
  deriving DecidableEq, Repr

/-- One firing of the `tokio::select!` in the outer loop
(control_server.rs:142-209). -/
inductive ServeEvent where
  /-- `shutdown_rx.wait()` resolved with this reason. -/
  | shutdown (reason : ShutdownSignal)
  /-- `rx.recv()` resolved (`none` when the channel is closed). -/
  | signal (c : Option ServerSignal)
  /-- `forwarding.recv()` yielded an event, processed in place. -/
  | forwarding
  /-- `port.recv()` yielded an accepted stream; a connection task is spawned. -/
  | accepted
  /-- `port.recv()` yielded `None`: the tunnel port closed. -/
  | portClosed

/-- One iteration of the outer loop: `some n` means the loop returns with
outcome `n`; `none` means it continues looping. -/
def serveStep : ServeEvent → Option Next
  | ServeEvent.shutdown ShutdownSignal.RpcRestartRequested => some Next.Restart
  | ServeEvent.shutdown ShutdownSignal.other => some Next.Exit
  | ServeEvent.signal (some ServerSignal.Respawn) => some Next.Respawn
  | ServeEvent.signal none => none
  | ServeEvent.forwarding => none
  | ServeEvent.accepted => none
  | ServeEvent.portClosed => some Next.Restart

/-! ### `did_update` across a connection (control_server.rs:341-349, 622-667) -/

/-- The `did_update` flag after a sequence of `update` calls. -/
def runUpdates (did : Bool) (calls : List (UpdateEnv × UpdateParams)) : Bool :=
  match calls with
  | [] => did
  | c :: rest => runUpdates (handle_update c.1 did c.2).2.1 rest

/-- End of the reader task (control_server.rs:343-346): after the read loop
ends, send `ServerSignal::Respawn` to the accept loop iff `did_update` is
set. -/
def readerEndSignal (did : Bool) : Option ServerSignal :=
  if did then some ServerSignal.Respawn else none

/-! ### `handle_spawn` (control_server.rs:781-852) -/

/-- Rust `SpawnParams` (the fields `handle_spawn` consumes). -/
structure SpawnParams where
  command : String
  args : List String
  deriving DecidableEq, Repr

/-- Rust `SpawnResult { message, exit_code }`. -/
structure SpawnResult where
  message : String
  exit_code : Int
  deriving DecidableEq, Repr

/-- Which branch of the `tokio::select!` at control_server.rs:830-833 wins:
either `join_all(futs)` (all stdio copy futures finished, then the child's
exit is awaited) or `&mut closed` (the child's exit was observed first, and
the still-pending copy futures are dropped). -/
inductive SelectWinner where
  | copiesDone
  | childExited
  deriving DecidableEq, Repr

/-- One run of `handle_spawn`: what the child did and how the select was
scheduled.  `copiedOutAtExit`/`copiedErrAtExit` are how many stdout/stderr
bytes the copy futures had already delivered when the `closed` branch won;
when the `copiesDone` branch wins the copies ran to EOF, i.e. delivered
everything the child wrote. -/
structure SpawnRun where
  /-- `Command::spawn()` failed (`ProcessSpawnFailed`). -/
  spawnFails : Bool
  /-- bytes the child wrote to its stdout before exiting -/
  stdoutWritten : List Nat
  /-- bytes the child wrote to its stderr before exiting -/
  stderrWritten : List Nat
  /-- which select branch completed first -/
  winner : SelectWinner
  copiedOutAtExit : Nat
  copiedErrAtExit : Nat
  /-- `p.wait()` outcome: `some code` from `e.code()`, `none` when the
  platform reports no exit code (then `-1` is used). -/
  exitCode : Option Int
  deriving Repr

/-- Rust `handle_spawn` with caller-provided stdout and stderr sinks
(control_server.rs:781-852): the returned pair is the RPC result and the
bytes delivered to the two sinks by the time the result is produced. -/
def handle_spawn (run : SpawnRun) (_params : SpawnParams) :
    Except AnyError SpawnResult × List Nat × List Nat :=
  if run.spawnFails then
    (Except.error (AnyError.ProcessSpawnFailed ("spawn")), [], [])
  else
    let delivered : List Nat × List Nat :=
      match run.winner with
      | SelectWinner.copiesDone => (run.stdoutWritten, run.stderrWritten)
      | SelectWinner.childExited =>
        (run.stdoutWritten.take run.copiedOutAtExit, run.stderrWritten.take run.copiedErrAtExit)
    let r : SpawnResult :=
      { message := "exit", exit_code := run.exitCode.getD (-1) }
    (Except.ok r, delivered)

/-! ### Per-connection frame ordering (control_server.rs:322-411)

The reader task first awaits `send_version` (which enqueues the `version`
client-request on `socket_tx`) and only then enters `handle_socket_read`, so
every RPC response, and every `serverlog`/`servermsg` push, is enqueued on
`socket_tx` after the `version` frame; `CloseWith` (rs:336) is likewise sent
after.  The write loop (rs:354-396) drains `socket_tx` in FIFO order but
selects between it and the independent delegated-HTTP queue `http_rx`
(emitting `makehttpreq` frames), with no priority between ready branches.
The model below is a step relation over that state; a schedule is a list of
steps. -/

/-- Kinds of frames written to the outbound socket half. -/
inductive Frame where
  | version
  | makehttpreq
  | response
  | serverlog
  | servermsg
  deriving DecidableEq, Repr

/-- Frames that travel through `socket_tx` (everything except `makehttpreq`,
which the write loop serializes straight from `http_rx`). -/
def Frame.viaSocketQueue : Frame → Bool
  | Frame.version => true
  | Frame.makehttpreq => false
  | Frame.response => true
  | Frame.serverlog => true
  | Frame.servermsg => true

/-- Frames that handlers, bridges and the response path put on `socket_tx`
(everything on the queue except the initial `version`). -/
def Frame.fromHandler : Frame → Bool
  | Frame.response => true
  | Frame.serverlog => true
  | Frame.servermsg => true
  | _ => false

/-- Rust `SocketSignal` (socket_signal.rs, as consumed at control_server.rs:379-394):
either bytes to write or a close request with a reason. -/
inductive SocketSignal where
  | Send (f : Frame)
  | CloseWith
  deriving DecidableEq, Repr

/-- State of one connection's send side. -/
structure ConnState where
  /-- `send_version` (rs:329) has completed, i.e. `version` was enqueued. -/
  versionSent : Bool
  /-- the `socket_tx`/`socket_rx` channel contents, FIFO -/
  socketQueue : List SocketSignal
  /-- the `http_rx` delegated-HTTP queue contents, FIFO -/
  httpQueue : List Nat
  /-- frames written to the socket so far, in write order -/
  wire : List Frame
  /-- the write loop has exited (`break` / shutdown) -/
  halted : Bool
  deriving DecidableEq, Repr

/-- The connection starts with empty queues, nothing written, version not yet
sent. -/
def initConn : ConnState :=
  { versionSent := false, socketQueue := [], httpQueue := [], wire := [], halted := false }

/-- Atomic scheduler steps of the per-connection task graph. -/
inductive ConnStep where
  /-- the reader task runs `send_version` (its first await, rs:329) -/
  | readerSendVersion
  /-- a handler's delegated HTTP request lands in `http_rx` (only possible
  after `send_version` completed, since handlers run on dispatched frames) -/
  | handlerHttpReq (r : Nat)
  /-- a response / `serverlog` / `servermsg` signal lands on `socket_tx` -/
  | handlerSend (f : Frame)
  /-- the reader sends `CloseWith` after a read error (rs:336) -/
  | readerClose
  /-- the write loop takes the `http_rx` branch and writes `makehttpreq` -/
  | writerHttp
  /-- the write loop takes the `socket_rx` branch -/
  | writerSocket
  /-- the write loop observes the exit barrier and stops -/
  | writerExit
  deriving DecidableEq, Repr

/-- One step of the connection send-side state; `none` when the step is not
enabled in this state. -/
def connStep (s : ConnState) : ConnStep → Option ConnState
  | ConnStep.readerSendVersion =>
    if s.versionSent then none
    else some { s with versionSent := true,
                       socketQueue := s.socketQueue ++ [SocketSignal.Send Frame.version] }
  | ConnStep.handlerHttpReq r =>
    if s.versionSent then some { s with httpQueue := s.httpQueue ++ [r] } else none
  | ConnStep.handlerSend f =>
    if s.versionSent && f.fromHandler then
      some { s with socketQueue := s.socketQueue ++ [SocketSignal.Send f] }
    else none
  | ConnStep.readerClose =>
    if s.versionSent then
      some { s with socketQueue := s.socketQueue ++ [SocketSignal.CloseWith] }
    else none
  | ConnStep.writerHttp =>
    if s.halted then none
    else
      match s.httpQueue with
      | [] => none
      | _ :: rest => some { s with httpQueue := rest, wire := s.wire ++ [Frame.makehttpreq] }
  | ConnStep.writerSocket =>
    if s.halted then none
    else
      match s.socketQueue with
      | [] => none
      | SocketSignal.Send f :: rest =>
        some { s with socketQueue := rest, wire := s.wire ++ [f] }
      | SocketSignal.CloseWith :: rest =>
        some { s with socketQueue := rest, halted := true }
  | ConnStep.writerExit =>
    if s.halted then none else some { s with halted := true }

/-- Run a schedule from a state; `none` when some step was not enabled. -/
def runConnFrom (s : ConnState) (steps : List ConnStep) : Option ConnState :=
  match steps with
  | [] => some s
  | st :: rest =>
    match connStep s st with
    | none => none
    | some s2 => runConnFrom s2 rest

/-- Run a schedule from the initial connection state. -/
def runConn (steps : List ConnStep) : Option ConnState :=
  runConnFrom initConn steps

/-- The socket-queue-routed frames on the wire, in write order. -/
def sockFrames (w : List Frame) : List Frame :=
  w.filter Frame.viaSocketQueue

/-- Send-side invariant: before `send_version` completes nothing is queued or
written; afterwards, either `version` is the first socket-queue-routed frame
already on the wire, or none of them is written yet and `version` is at the
head of the queue. -/
def ConnInv (s : ConnState) : Prop :=
  (s.versionSent = false → s.socketQueue = [] ∧ s.httpQueue = [] ∧ s.wire = []) ∧
  (s.versionSent = true →
    (sockFrames s.wire).head? = some Frame.version ∨
    (sockFrames s.wire = [] ∧ s.socketQueue.head? = some (SocketSignal.Send Frame.version)))

/-- The failure modes of a `serve` call that happen before
`server_ref.replace` runs: resolve fails, `get_running` fails, or the
fresh-setup path (`setup` / `listen_on_default_socket`) fails. -/
def serveFails (env : ServeEnv) (e : AnyError) : Prop :=
  env.resolveResult = Except.error e ∨
  (env.resolveResult = Except.ok () ∧
    (env.getRunning = GetRunningResult.failed e ∨
      (env.getRunning = GetRunningResult.notRunning ∧ env.setupResult = Except.error e)))

/-! ## Helper lemmas -/

/-- Appending on the right preserves a known head. -/
theorem head?_append_left {α : Type} (l l2 : List α) (x : α) (h : l.head? = some x) :
    (l ++ l2).head? = some x := by
  cases l with
  | nil => simp at h
  | cons a t => simpa using h

/-- Rust `sockFrames` distributes over append. -/
theorem sockFrames_append (w l : List Frame) :
    sockFrames (w ++ l) = sockFrames w ++ sockFrames l := by
  simp [sockFrames]

/-- A `makehttpreq` write does not change the socket-queue-routed frames. -/
theorem sockFrames_append_http (w : List Frame) :
    sockFrames (w ++ [Frame.makehttpreq]) = sockFrames w := by
  simp [sockFrames, Frame.viaSocketQueue]

/-- The initial connection state satisfies the send-side invariant. -/
theorem connInv_init : ConnInv initConn := by
  constructor
  · intro _; exact ⟨rfl, rfl, rfl⟩
  · intro h; simp [initConn] at h

/-- Every enabled step preserves the send-side invariant. -/
theorem connInv_step (s s2 : ConnState) (st : ConnStep) (h : ConnInv s)
    (hs : connStep s st = some s2) : ConnInv s2 := by
  obtain ⟨h1, h2⟩ := h
  cases st with
  | readerSendVersion =>
    by_cases hv : s.versionSent = true
    · simp [connStep, hv] at hs
    · have hvf : s.versionSent = false := by simpa using hv
      simp [connStep, hvf] at hs
      obtain ⟨hq, _hh, hw⟩ := h1 hvf
      subst hs
      refine ⟨fun hf => by simp at hf, fun _ => Or.inr ?_⟩
      constructor
      · simp [sockFrames, hw]
      · simp [hq]
  | handlerHttpReq r =>
    by_cases hv : s.versionSent = true
    · simp [connStep, hv] at hs
      subst hs
      refine ⟨fun hf => by simp [hv] at hf, fun _ => ?_⟩
      simpa using h2 hv
    · have hvf : s.versionSent = false := by simpa using hv
      simp [connStep, hvf] at hs
  | handlerSend f =>
    by_cases hc : (s.versionSent && f.fromHandler) = true
    · simp only [connStep, hc, if_true, Option.some.injEq] at hs
      have hv : s.versionSent = true := (Bool.and_eq_true _ _).mp hc |>.1
      subst hs
      refine ⟨fun hf => by simp [hv] at hf, fun _ => ?_⟩
      rcases h2 hv with hhead | ⟨hempty, hqhead⟩
      · exact Or.inl hhead
      · exact Or.inr ⟨hempty, head?_append_left _ _ _ hqhead⟩
    · simp only [connStep, hc, if_false] at hs
      exact absurd hs (by simp)
  | readerClose =>
    by_cases hv : s.versionSent = true
    · simp [connStep, hv] at hs
      subst hs
      refine ⟨fun hf => by simp [hv] at hf, fun _ => ?_⟩
      rcases h2 hv with hhead | ⟨hempty, hqhead⟩
      · exact Or.inl hhead
      · exact Or.inr ⟨hempty, head?_append_left _ _ _ hqhead⟩
    · have hvf : s.versionSent = false := by simpa using hv
      simp [connStep, hvf] at hs
  | writerHttp =>
    by_cases hh : s.halted = true
    · simp [connStep, hh] at hs
    · have hhf : s.halted = false := by simpa using hh
      cases hq : s.httpQueue with
      | nil => simp [connStep, hhf, hq] at hs
      | cons r rest =>
        simp [connStep, hhf, hq] at hs
        subst hs
        constructor
        · intro hf
          simp at hf
          have := (h1 hf).2.1
          rw [hq] at this
          exact absurd this (by simp)
        · intro hvt
          simp at hvt
          rcases h2 hvt with hhead | ⟨hempty, hqhead⟩
          · exact Or.inl (by simpa [sockFrames_append_http] using hhead)
          · exact Or.inr ⟨by simpa [sockFrames_append_http] using hempty, by simpa using hqhead⟩
  | writerSocket =>
    by_cases hh : s.halted = true
    · simp [connStep, hh] at hs
    · have hhf : s.halted = false := by simpa using hh
      cases hq : s.socketQueue with
      | nil => simp [connStep, hhf, hq] at hs
      | cons x rest =>
        cases x with
        | Send f =>
          simp [connStep, hhf, hq] at hs
          subst hs
          constructor
          · intro hf
            simp at hf
            have := (h1 hf).1
            rw [hq] at this
            exact absurd this (by simp)
          · intro hvt
            simp at hvt
            rcases h2 hvt with hhead | ⟨hempty, hqhead⟩
            · refine Or.inl ?_
              show (sockFrames (s.wire ++ [f])).head? = some Frame.version
              rw [sockFrames_append]
              exact head?_append_left _ _ _ hhead
            · rw [hq] at hqhead
              simp at hqhead
              subst hqhead
              refine Or.inl ?_
              show (sockFrames (s.wire ++ [Frame.version])).head? = some Frame.version
              rw [sockFrames_append, hempty]
              rfl
        | CloseWith =>
          simp [connStep, hhf, hq] at hs
          subst hs
          constructor
          · intro hf
            simp at hf
            have := (h1 hf).1
            rw [hq] at this
            exact absurd this (by simp)
          · intro hvt
            simp at hvt
            rcases h2 hvt with hhead | ⟨hempty, hqhead⟩
            · exact Or.inl hhead
            · rw [hq] at hqhead
              simp at hqhead
  | writerExit =>
    by_cases hh : s.halted = true
    · simp [connStep, hh] at hs
    · have hhf : s.halted = false := by simpa using hh
      simp [connStep, hhf] at hs
      subst hs
      exact ⟨fun hf => h1 (by simpa using hf), fun hvt => by simpa using h2 (by simpa using hvt)⟩

/-- Running any enabled schedule preserves the send-side invariant. -/
theorem connInv_run (s : ConnState) (steps : List ConnStep) (s2 : ConnState)
    (h : ConnInv s) (hr : runConnFrom s steps = some s2) : ConnInv s2 := by
  induction steps generalizing s with
  | nil =>
    simp [runConnFrom] at hr
    exact hr ▸ h
  | cons st rest ih =>
    rw [runConnFrom] at hr
    cases hcs : connStep s st with
    | none => rw [hcs] at hr; exact absurd hr (by simp)
    | some s3 =>
      rw [hcs] at hr
      exact ih s3 (connInv_step s s3 st h hcs) hr

/-- The `code_server` slot is stable once occupied: a `serve` call that finds
`Some v` leaves `Some v`. -/
theorem handle_serve_slot_stable (v : Nat) (env : ServeEnv) (p : ServeParams) :
    (handle_serve (some v) env p).slot = some v := by
  unfold handle_serve
  cases env.resolveResult with
  | error e => rfl
  | ok u => cases env.attachResult with
    | error e => rfl
    | ok u2 => rfl

/-- An occupied slot survives any sequence of `serve` calls unchanged. -/
theorem serveSeq_stable (v : Nat) (calls : List (ServeEnv × ServeParams)) :
    serveSeq (some v) calls = some v := by
  induction calls with
  | nil => rfl
  | cons c rest ih =>
    rw [serveSeq, handle_serve_slot_stable]
    exact ih

/-- Splitting a sequence of `serve` calls threads the slot through. -/
theorem serveSeq_append (slot : Option Nat) (l1 l2 : List (ServeEnv × ServeParams)) :
    serveSeq slot (l1 ++ l2) = serveSeq (serveSeq slot l1) l2 := by
  induction l1 generalizing slot with
  | nil => rfl
  | cons c rest ih => rw [List.cons_append, serveSeq, serveSeq, ih]

/-- Once `did_update` is set, `handle_update` keeps it set. -/
theorem handle_update_keeps_true (env : UpdateEnv) (p : UpdateParams) :
    (handle_update env true p).2.1 = true := by
  simp [handle_update]

/-- Once `did_update` is set, it survives any sequence of `update` calls. -/
theorem runUpdates_true (calls : List (UpdateEnv × UpdateParams)) :
    runUpdates true calls = true := by
  induction calls with
  | nil => rfl
  | cons c rest ih =>
    rw [runUpdates, handle_update_keeps_true]
    exact ih

/-! ## Claim theorems -/

/-- C1 counterexample: the claim says a `servermsg` whose socket id has no
registered bridge gets a `NoAttachedServer` error response; on the code, the
registered closure for an empty multiplexer and socket id 7 responds `{}`
and not the error. -/
theorem C1_counterexample :
    servermsg_rpc [] ⟨7, [120]⟩ = Except.ok EmptyObject.mk ∧
    servermsg_rpc [] ⟨7, [120]⟩ ≠ Except.error AnyError.NoAttachedServer := by
  refine ⟨rfl, ?_⟩
  intro h
  simp [servermsg_rpc, handle_server_message, write_message] at h

/-- C1 (amended): `handle_server_message` yields `NoAttachedServer` exactly
when the socket id has no registered bridge and `{}` when it has one, but
the closure registered for `servermsg` logs and discards the error, so the
RPC response delivered to the client is `{}` in both cases. -/
theorem C1_servermsg_response (mux : ServerMultiplexer) (p : ServerMessageParams) :
    handle_server_message mux p =
      (if mux.contains p.i then Except.ok EmptyObject.mk
        else Except.error AnyError.NoAttachedServer) ∧
    servermsg_rpc mux p = Except.ok EmptyObject.mk := by
  constructor
  · rfl
  · unfold servermsg_rpc
    cases handle_server_message mux p <;> rfl

/-- C2: the dispatcher's method table has no `httpbody` entry; the name
`unforward` is registered twice — once async with `UnforwardParams` (the
port operation) and once sync with `HttpBodyParams` (the HTTP body
delivery), so the claim (and the spec's intent) is right and the code's
second registration name is the slip. -/
theorem C2_method_table_collision :
    (registeredMethods.map Prod.fst).count ("unforward") = 2 ∧
    "httpbody" ∉ registeredMethods.map Prod.fst ∧
    registeredMethods.filter (fun m => m.1 = "unforward") =
      [("unforward", HandlerKind.async, ParamKind.unforwardParams),
       ("unforward", HandlerKind.sync, ParamKind.httpBodyParams)] := by
  refine ⟨by decide, by decide, by decide⟩

/-- C3: the `code_server` slot transitions `None → Some` at most once: if
some sequence of `serve` calls takes the slot from `none` to `some v`, every
further sequence of calls leaves it at `some v`; a call that finds the slot
holding `v` leaves it holding `v` and binds its bridge to `v` (or to
nothing, when it fails before the slot section). -/
theorem C3_at_most_one_code_server (v : Nat) (env : ServeEnv) (p : ServeParams)
    (calls calls2 : List (ServeEnv × ServeParams))
    (h : serveSeq none calls = some v) :
    serveSeq none (calls ++ calls2) = some v ∧
    (handle_serve (some v) env p).slot = some v ∧
    ((handle_serve (some v) env p).server = none ∨
      (handle_serve (some v) env p).server = some v) := by
  refine ⟨?_, handle_serve_slot_stable v env p, ?_⟩
  · rw [serveSeq_append, h]
    exact serveSeq_stable v calls2
  · unfold handle_serve
    cases env.resolveResult with
    | error e => exact Or.inl rfl
    | ok u =>
      cases env.attachResult with
      | error e => exact Or.inr rfl
      | ok u2 => exact Or.inr rfl

/-- C3 witness: one successful `serve` stores server 3; a later failing call
and a later succeeding call both leave the slot at 3, and a call finding 3
binds its bridge to 3. -/
theorem C3_at_most_one_code_server_witness :
    serveSeq none
        ([(⟨Except.ok (), GetRunningResult.notRunning, Except.ok 3, Except.ok ()⟩,
           ⟨[], false, 7, false⟩)] ++
         [(⟨Except.ok (), GetRunningResult.notRunning, Except.ok 4, Except.ok ()⟩,
           ⟨[], false, 8, true⟩)]) = some 3 ∧
    (handle_serve (some 3)
        ⟨Except.ok (), GetRunningResult.notRunning, Except.ok 4, Except.ok ()⟩
        ⟨[], false, 8, true⟩).slot = some 3 ∧
    ((handle_serve (some 3)
        ⟨Except.ok (), GetRunningResult.notRunning, Except.ok 4, Except.ok ()⟩
        ⟨[], false, 8, true⟩).server = none ∨
      (handle_serve (some 3)
        ⟨Except.ok (), GetRunningResult.notRunning, Except.ok 4, Except.ok ()⟩
        ⟨[], false, 8, true⟩).server = some 3) :=
  C3_at_most_one_code_server 3
    ⟨Except.ok (), GetRunningResult.notRunning, Except.ok 4, Except.ok ()⟩
    ⟨[], false, 8, true⟩
    [(⟨Except.ok (), GetRunningResult.notRunning, Except.ok 3, Except.ok ()⟩,
      ⟨[], false, 7, false⟩)]
    [(⟨Except.ok (), GetRunningResult.notRunning, Except.ok 4, Except.ok ()⟩,
      ⟨[], false, 8, true⟩)] rfl

/-- C4: once an `update` call sets `did_update`, it stays set over any later
`update` calls, the reader task sends `ServerSignal::Respawn` when the read
loop ends, and the outer loop's `rx.recv()` arm returns `Next::Respawn`. -/
theorem C4_did_update_respawn (d : Bool) (env : UpdateEnv) (p : UpdateParams)
    (calls : List (UpdateEnv × UpdateParams))
    (h : (handle_update env d p).2.1 = true) :
    runUpdates (handle_update env d p).2.1 calls = true ∧
    readerEndSignal (runUpdates (handle_update env d p).2.1 calls) =
      some ServerSignal.Respawn ∧
    serveStep (ServeEvent.signal
        (readerEndSignal (runUpdates (handle_update env d p).2.1 calls))) =
      some Next.Respawn := by
  rw [h]
  refine ⟨runUpdates_true calls, ?_, ?_⟩
  · rw [runUpdates_true]; rfl
  · rw [runUpdates_true]; rfl

/-- C4 witness: a concrete `update` call (do_update, not integrated, not up
to date, update succeeds) sets the flag; the pipeline then respawns. -/
theorem C4_did_update_respawn_witness :
    runUpdates (handle_update ⟨false, Except.ok 1, false, Except.ok ()⟩ false ⟨true⟩).2.1
        [(⟨false, Except.ok 2, true, Except.ok ()⟩, ⟨false⟩)] = true ∧
    readerEndSignal (runUpdates
        (handle_update ⟨false, Except.ok 1, false, Except.ok ()⟩ false ⟨true⟩).2.1
        [(⟨false, Except.ok 2, true, Except.ok ()⟩, ⟨false⟩)]) =
      some ServerSignal.Respawn ∧
    serveStep (ServeEvent.signal (readerEndSignal (runUpdates
        (handle_update ⟨false, Except.ok 1, false, Except.ok ()⟩ false ⟨true⟩).2.1
        [(⟨false, Except.ok 2, true, Except.ok ()⟩, ⟨false⟩)]))) =
      some Next.Respawn :=
  C4_did_update_respawn false ⟨false, Except.ok 1, false, Except.ok ()⟩ ⟨true⟩
    [(⟨false, Except.ok 2, true, Except.ok ()⟩, ⟨false⟩)] rfl

/-- C5 counterexample: the claim says every run of `handle_spawn` delivers
all bytes the child wrote before exiting; in the run where the child's exit
future wins the `tokio::select!` while only 1 of 2 stdout bytes has been
copied, the result is produced with the copy futures dropped and only the
first byte delivered. -/
theorem C5_counterexample :
    ¬ (∀ (run : SpawnRun) (p : SpawnParams), run.spawnFails = false →
        (handle_spawn run p).2.1 = run.stdoutWritten ∧
        (handle_spawn run p).2.2 = run.stderrWritten) := by
  intro h
  have := (h ⟨false, [1, 2], [], SelectWinner.childExited, 1, 0, some 0⟩ ⟨"sh", []⟩ rfl).1
  simp [handle_spawn] at this

/-- C5 (amended): `handle_spawn` joins the copy tasks before producing its
result only when the `join_all` branch of the select wins; in that case all
stdout/stderr bytes the child wrote are delivered to the caller sinks before
the `{ exit_code, message }` result is produced.  When the child-exit branch
wins first, the pending copies are dropped. -/
theorem C5_spawn_flush (run : SpawnRun) (p : SpawnParams)
    (h1 : run.spawnFails = false) (h2 : run.winner = SelectWinner.copiesDone) :
    (handle_spawn run p).1 =
      Except.ok { message := "exit", exit_code := run.exitCode.getD (-1) } ∧
    (handle_spawn run p).2.1 = run.stdoutWritten ∧
    (handle_spawn run p).2.2 = run.stderrWritten := by
  simp [handle_spawn, h1, h2]

/-- C5 witness: a copies-done run with stdout `[1,2]` and stderr `[3]`
delivers everything before returning exit code 5. -/
theorem C5_spawn_flush_witness :
    (handle_spawn ⟨false, [1, 2], [3], SelectWinner.copiesDone, 0, 0, some 5⟩ ⟨"sh", []⟩).1 =
      Except.ok { message := "exit", exit_code := (5 : Int) } ∧
    (handle_spawn ⟨false, [1, 2], [3], SelectWinner.copiesDone, 0, 0, some 5⟩ ⟨"sh", []⟩).2.1 =
      [1, 2] ∧
    (handle_spawn ⟨false, [1, 2], [3], SelectWinner.copiesDone, 0, 0, some 5⟩ ⟨"sh", []⟩).2.2 =
      [3] :=
  C5_spawn_flush ⟨false, [1, 2], [3], SelectWinner.copiesDone, 0, 0, some 5⟩ ⟨"sh", []⟩ rfl rfl

/-- C6: when resolve or editor-server setup fails, the `serve` caller gets
exactly that error, the `code_server` slot stays `none`, and a later retry
whose environment succeeds stores a server and returns `{}`. -/
theorem C6_setup_error_leaves_slot_empty (env : ServeEnv) (p : ServeParams) (e : AnyError)
    (h : serveFails env e) :
    handle_serve none env p = { result := Except.error e, slot := none, server := none } ∧
    ∀ s : Nat,
      (handle_serve none ⟨Except.ok (), GetRunningResult.notRunning,
        Except.ok s, Except.ok ()⟩ p).result = Except.ok EmptyObject.mk ∧
      (handle_serve none ⟨Except.ok (), GetRunningResult.notRunning,
        Except.ok s, Except.ok ()⟩ p).slot = some s := by
  refine ⟨?_, fun s => ⟨rfl, rfl⟩⟩
  rcases h with h | ⟨hres, h⟩
  · unfold handle_serve
    rw [h]
  · rcases h with h | ⟨hrun, hsetup⟩
    · unfold handle_serve
      rw [hres, h]
    · unfold handle_serve
      rw [hres, hrun, hsetup]

/-- C6 witness: a concrete failing resolve leaves the slot empty, and the
retry clause evaluates at server handle 3. -/
theorem C6_setup_error_leaves_slot_empty_witness :
    handle_serve none ⟨Except.error (AnyError.Wrapped ("resolve")), GetRunningResult.notRunning,
        Except.ok 0, Except.ok ()⟩ ⟨[], false, 7, false⟩ =
      { result := Except.error (AnyError.Wrapped ("resolve")), slot := none, server := none } ∧
    ∀ s : Nat,
      (handle_serve none ⟨Except.ok (), GetRunningResult.notRunning,
        Except.ok s, Except.ok ()⟩ ⟨[], false, 7, false⟩).result = Except.ok EmptyObject.mk ∧
      (handle_serve none ⟨Except.ok (), GetRunningResult.notRunning,
        Except.ok s, Except.ok ()⟩ ⟨[], false, 7, false⟩).slot = some s :=
  C6_setup_error_leaves_slot_empty
    ⟨Except.error (AnyError.Wrapped ("resolve")), GetRunningResult.notRunning,
      Except.ok 0, Except.ok ()⟩
    ⟨[], false, 7, false⟩ (AnyError.Wrapped ("resolve")) (Or.inl rfl)

/-- C7: the outer loop returns `Restart` on `RpcRestartRequested`, `Exit` on
any other shutdown signal, `Respawn` when a runtime sends the respawn
signal, `Restart` when the control port yields no more streams, and keeps
looping when the signal channel merely closes. -/
theorem C7_accept_loop_outcomes :
    serveStep (ServeEvent.shutdown ShutdownSignal.RpcRestartRequested) = some Next.Restart ∧
    serveStep (ServeEvent.shutdown ShutdownSignal.other) = some Next.Exit ∧
    serveStep (ServeEvent.signal (some ServerSignal.Respawn)) = some Next.Respawn ∧
    serveStep ServeEvent.portClosed = some Next.Restart ∧
    serveStep (ServeEvent.signal none) = none :=
  ⟨rfl, rfl, rfl, rfl, rfl⟩

/-- C8 counterexample: the claim says the first frame written on any
connection is the `version` client-request; the schedule that lets a handler
enqueue a delegated HTTP request and the write loop pick the `http_rx`
branch before draining `socket_tx` writes `makehttpreq` first. -/
theorem C8_counterexample :
    ¬ (∀ (steps : List ConnStep) (s : ConnState), runConn steps = some s →
        s.wire = [] ∨ s.wire.head? = some Frame.version) := by
  intro h
  have := h [ConnStep.readerSendVersion, ConnStep.handlerHttpReq 0, ConnStep.writerHttp]
    { versionSent := true, socketQueue := [SocketSignal.Send Frame.version], httpQueue := [],
      wire := [Frame.makehttpreq], halted := false } rfl
  rcases this with h2 | h2 <;> simp at h2

/-- C8 (amended): on every reachable send-side state, the `version`
client-request precedes every RPC response, `serverlog`, and `servermsg`
frame on the wire (it is the head of the socket-queue-routed frames); only a
`makehttpreq` frame, which travels the separate delegated-HTTP channel, can
be written before it. -/
theorem C8_version_before_responses (steps : List ConnStep) (s : ConnState)
    (h : runConn steps = some s) :
    sockFrames s.wire = [] ∨ (sockFrames s.wire).head? = some Frame.version := by
  have hinv : ConnInv s := connInv_run initConn steps s connInv_init h
  obtain ⟨h1, h2⟩ := hinv
  by_cases hv : s.versionSent = true
  · rcases h2 hv with hhead | ⟨hempty, _⟩
    · exact Or.inr hhead
    · exact Or.inl hempty
  · have hvf : s.versionSent = false := by simpa using hv
    have := (h1 hvf).2.2
    exact Or.inl (by simp [sockFrames, this])

/-- C8 witness: after the schedule that sends and then writes the version
frame, the socket-routed wire frames start with `version`. -/
theorem C8_version_before_responses_witness :
    sockFrames (ConnState.mk true [] [] [Frame.version] false).wire = [] ∨
    (sockFrames (ConnState.mk true [] [] [Frame.version] false).wire).head? =
      some Frame.version :=
  C8_version_before_responses [ConnStep.readerSendVersion, ConnStep.writerSocket]
    (ConnState.mk true [] [] [Frame.version] false) rfl

/-- C9: an `httpheaders` request and an HTTP-body request whose `req_id` is
not pending both answer `{}`, leave the pending table exactly as it was, and
perform no delivery effect. -/
theorem C9_missing_req_id_noop (reqs : HttpRequestsMap) (p1 : HttpHeadersParams)
    (p2 : HttpBodyParams) (h1 : hmGet reqs p1.req_id = none)
    (h2 : hmGet reqs p2.req_id = none) :
    handle_httpheaders reqs p1 = (Except.ok EmptyObject.mk, reqs, []) ∧
    handle_httpbody reqs p2 = (Except.ok EmptyObject.mk, reqs, []) := by
  constructor
  · unfold handle_httpheaders
    rw [h1]
  · unfold handle_httpbody
    rw [h2]

/-- C9 witness: on the empty pending table and `req_id = 5`, both handlers
answer `{}` and change nothing. -/
theorem C9_missing_req_id_noop_witness :
    handle_httpheaders [] ⟨5, 200, []⟩ = (Except.ok EmptyObject.mk, [], []) ∧
    handle_httpbody [] ⟨5, [1], true⟩ = (Except.ok EmptyObject.mk, [], []) :=
  C9_missing_req_id_noop [] ⟨5, 200, []⟩ ⟨5, [1], true⟩ rfl rfl

/-- C10: when `did_update` is already set, or the process runs as an
integrated CLI, `handle_update` returns `{ up_to_date: true, did_update:
false }` at once: no release is fetched, no update is performed, and the
flag is unchanged. -/
theorem C10_update_short_circuit (env : UpdateEnv) (d : Bool) (p : UpdateParams)
    (h : d = true ∨ env.integratedCli = true) :
    handle_update env d p =
      (Except.ok { up_to_date := true, did_update := false }, d, ⟨false, false⟩) := by
  unfold handle_update
  rcases h with h | h <;> simp [h]

/-- C10 witness: with the flag already set (and a stale environment that
would otherwise update), the call short-circuits. -/
theorem C10_update_short_circuit_witness :
    handle_update ⟨false, Except.ok 9, false, Except.ok ()⟩ true ⟨true⟩ =
      (Except.ok { up_to_date := true, did_update := false }, true, ⟨false, false⟩) :=
  C10_update_short_circuit ⟨false, Except.ok 9, false, Except.ok ()⟩ true ⟨true⟩ (Or.inl rfl)

end ControlServer
